import Mathlib

/-!
Verification of the longitudinal planner / MPC wrapper of openpilot 0.6.6
(`selfdrive/controls/lib/long_mpc.py` and `selfdrive/controls/lib/planner.py`).

The Python sources are embedded shallowly over `ℚ`: float arithmetic is
modelled as exact rational arithmetic, a possibly-NaN float is modelled as
`Option ℚ` (`none` = NaN) where the code explicitly probes for NaN, and the
opaque QP solver (`libmpc`) is treated as an oracle whose trajectory result
is an input to the post-solve sanitation code.  The code is Python 2
(`planner.py` subscripts and assigns into the result of `map(...)`, which
only a Python 2 list supports), so integer literals divide as integers:
`1/250 = 0` and `13/2500 = 0`.
-/

namespace OP

/-- `clip` from `common.numpy_fast` (not under src/; modelled from the spec:
the shared clamping primitive): `clip(x, lo, hi) = max(lo, min(hi, x))`. -/
def clip (x lo hi : ℚ) : ℚ := max lo (min hi x)

/-- Piecewise-linear interpolation on a list of breakpoint pairs, the helper
realising `interp` from `common.numpy_fast` (not under src/; modelled from
the spec: the shared piecewise-linear lookup primitive, clamping to the
first/last output outside the breakpoint range). -/
def interpP (x : ℚ) : List (ℚ × ℚ) → ℚ
  | [] => 0
  | [(_, y1)] => y1
  | (x1, y1) :: (x2, y2) :: rest =>
      if x ≤ x1 then y1
      else if x ≤ x2 then (x - x1) * (y2 - y1) / (x2 - x1) + y1
      else interpP x ((x2, y2) :: rest)

/-- `interp(x, xp, fp)` from `common.numpy_fast` on scalar `x`. -/
def interp (x : ℚ) (xp fp : List ℚ) : ℚ := interpP x (xp.zip fp)

/-- Python 2 `round(q, 3)`: round to 3 decimal places, ties away from zero. -/
def pyRound3 (q : ℚ) : ℚ :=
  if 0 ≤ q then (⌊q * 1000 + 1/2⌋ : ℚ) / 1000
  else -((⌊-q * 1000 + 1/2⌋ : ℚ) / 1000)

/-- The lead observation triple held in `LongitudinalMpc.lead_data`.  The
source stores the three entries in one dict and only ever assigns them
together: all three at line 270 (lead present) or all `None` at line 288
(no lead), so the dict is modelled as `Option LeadObs`. -/
structure LeadObs where
  v_lead : ℚ
  x_lead : ℚ
  a_lead : ℚ
deriving DecidableEq

/-- `LongitudinalMpc.dynamic_follow` (long_mpc.py lines 113-144): the desired
following time-gap in seconds, from ego speed, the optional lead data and the
turn-signal flags of the car state. -/
def dynamic_follow (v_ego : ℚ) (lead_data : Option LeadObs)
    (leftBlinker rightBlinker : Bool) : ℚ :=
  let x_vel : List ℚ := [0.0, 5.222, 11.164, 14.937, 20.973, 33.975, 42.469]
  let y_mod : List ℚ := [1.542, 1.553, 1.599, 1.68, 1.75, 1.855, 1.9]
  if v_ego > 6.7056 then
    let TR := interp v_ego x_vel y_mod
    match lead_data with
    | some l =>
        let TR_mod := interp (l.v_lead - v_ego)
          [-15.6464, -9.8422, -6.0, -4.0, -2.68, -2.3, -1.8, -1.26, -0.61, 0, 0.61, 1.26, 2.1, 2.68]
          [0.504, 0.34, 0.29, 0.25, 0.22, 0.19, 0.13, 0.053, 0.017, 0, -0.015, -0.042, -0.108, -0.163]
        let TR_mod := TR_mod + interp l.a_lead
          [-2.235, -1.49, -1.1, -0.67, -0.224, 0.0, 0.67, 1.1, 1.49]
          [0.26, 0.182, 0.104, 0.052, 0.039, 0.0, -0.016, -0.032, -0.056]
        let TR := TR + TR_mod
        let TR := if leftBlinker || rightBlinker then
            TR * interp v_ego [8.9408, 22.352, 31.2928] [1.0, 0.8, 0.75]
          else TR
        clip (pyRound3 TR) 0.9 2.7
    | none => clip (pyRound3 TR) 0.9 2.7
  else
    pyRound3 (interp v_ego [4.4704, 6.7056] [1.8, interp 6.7056 x_vel y_mod])

/-- `LongitudinalMpc.get_cost` (long_mpc.py lines 146-157): the optimizer
cost weight for a time-gap `TR`, substituting the actual distance/speed
ratio when it diverges from `TR` by at least 0.25 s, and dividing by a
closing-speed factor when lead velocity data exists and ego is above 5 m/s. -/
def get_cost (lead_data : Option LeadObs) (v_ego TR : ℚ) : ℚ :=
  let x : List ℚ := [0.9, 1.8, 2.7]
  let y : List ℚ := [1.0, 0.1, 0.05]
  let TR := match lead_data with
    | some l =>
        if v_ego ≠ 0 ∧ |l.x_lead / v_ego - TR| ≥ 0.25 then l.x_lead / v_ego else TR
    | none => TR
  match lead_data with
  | some l =>
      if v_ego > 5 then
        clip (interp TR x y / clip ((l.v_lead - v_ego) / 2 + 1.5) 1 2) 1.1 4.5
      else pyRound3 (interp TR x y)
  | none => pyRound3 (interp TR x y)

/-- `read_distance_lines` is the constant 2 in this fork (long_mpc.py line 187). -/
def read_distance_lines : ℕ := 2

/-- `LongitudinalMpc.get_TR` (long_mpc.py lines 175-209).  Returns the
time-gap together with the `last_cost` field after the call (`change_cost`
leaves `last_cost` equal to the newly selected cost; the early return at
line 190 leaves it untouched). -/
def get_TR (lead_data : Option LeadObs) (v_ego : ℚ) (customTR : Option ℚ)
    (leftBlinker rightBlinker : Bool) (last_cost : ℚ) : ℚ × ℚ :=
  match lead_data with
  | none => (1.8, get_cost lead_data v_ego 1.8)
  | some _ =>
      match customTR with
      | some c =>
          let cc := clip c 0.9 2.7
          (cc, get_cost lead_data v_ego cc)
      | none =>
          if v_ego < 2 ∧ ¬ read_distance_lines = 2 then (1.8, last_cost)
          else if read_distance_lines = 1 then (0.9, 1.0)
          else if read_distance_lines = 2 then
            let TR := dynamic_follow v_ego lead_data leftBlinker rightBlinker
            (TR, get_cost lead_data v_ego TR)
          else (2.7, 0.05)

/-- The `cur_state` seed handed to the solver (`state_t`): ego position,
velocity, acceleration and lead position, velocity. -/
structure CurState where
  x_ego : ℚ
  v_ego : ℚ
  a_ego : ℚ
  x_l : ℚ
  v_l : ℚ
deriving DecidableEq

/-- `LongitudinalMpc.set_cur_state` (long_mpc.py lines 71-73), invoked by the
planner with the recurrence state (`v_acc_start`, `a_acc_start`) right before
each `update` call (planner.py lines 308-309). -/
def set_cur_state (cs : CurState) (v a : ℚ) : CurState :=
  { cs with v_ego := v, a_ego := a }

/-- The lead message the planner passes to `update` (`live20.leadOne` /
`leadTwo`): always a concrete record whose validity is its `status` flag. -/
structure RadarLead where
  dRel : ℚ
  vLead : ℚ
  aLeadK : ℚ
  aLeadTau : ℚ
  status : Bool
deriving DecidableEq

/-- The phantom-mode fields read by `update` (`selfdrive.phantom`, not under
src/; modelled from the spec: the synthetic "phantom lead" source with a
status flag, a commanded speed and a lost-connection flag). -/
structure PhantomData where
  status : Bool
  speed : ℚ
  lost_connection : Bool
deriving DecidableEq

/-- `_LEAD_ACCEL_TAU` from `radar_helpers` (not under src/; modelled from the
spec: the default lead acceleration time-constant; its value decides no
claim). -/
def LEAD_ACCEL_TAU : ℚ := 1.5

/-- `LongitudinalMpc.process_phantom` (long_mpc.py lines 211-223): the
(x_lead, v_lead) pair used while the phantom is active with nonzero speed. -/
def process_phantom (phantom_speed : ℚ) (lead : RadarLead) : ℚ × ℚ :=
  if lead.status then
    let v_lead := max 0 lead.vLead
    let v_lead := if v_lead < 0.1 ∨ -lead.aLeadK / 2 > v_lead then 0 else v_lead
    let x_lead := min 9.144 lead.dRel
    let v_lead := min phantom_speed v_lead
    (x_lead, v_lead)
  else (9.144, phantom_speed)

/-- The state written by the pre-solve part of `LongitudinalMpc.update`. -/
structure FrontOut where
  cur_state : CurState
  a_lead : ℚ
  new_lead : Bool
  /-- `True` exactly when this call invoked `libmpc.init_with_simulation`
  (the cold start discarding the stale warm start). -/
  cold_started : Bool
  prev_lead_status : Bool
  prev_lead_x : ℚ
  lead_data : Option LeadObs
  a_lead_tau : ℚ
deriving DecidableEq

/-- The pre-solve part of `LongitudinalMpc.update` (long_mpc.py lines
232-289): `cur_state.x_ego := 0`, then the phantom / real-lead / no-lead
branch, each seeding the lead geometry and maintaining the lead-tracking
flags.  `new_lead_prev` is the instance's `new_lead` field on entry (the
no-lead branch leaves it untouched). -/
def updateFront (phantom : PhantomData) (lead : RadarLead) (v_ego : ℚ)
    (cs : CurState) (prev_lead_status : Bool) (prev_lead_x : ℚ)
    (new_lead_prev : Bool) (lead_data : Option LeadObs) (a_lead_tau : ℚ) :
    FrontOut :=
  let cs := { cs with x_ego := 0 }
  if phantom.status then
    let a_lead : ℚ := 0
    let (x_lead, v_lead, a_lead) :=
      if phantom.speed ≠ 0 then
        let (x_lead, v_lead) := process_phantom phantom.speed lead
        (x_lead, v_lead, a_lead)
      else if phantom.lost_connection then
        (interp v_ego [0, 14.3053] [0.6096, 6.096],
         max (v_ego - 4.4704) 0,
         interp v_ego [0, 14.3053] [0, -2.2352])
      else
        (3.75, max (v_ego - 1.34112) 0, -0.44704)
    let new_lead := !prev_lead_status || decide (|x_lead - prev_lead_x| > 2.5)
    { cur_state := { cs with x_l := x_lead, v_l := v_lead },
      a_lead := a_lead, new_lead := new_lead, cold_started := new_lead,
      prev_lead_status := true, prev_lead_x := x_lead,
      lead_data := lead_data, a_lead_tau := lead.aLeadTau }
  else if lead.status then
    let x_lead := lead.dRel
    let v_lead0 := max 0 lead.vLead
    let a_lead0 := lead.aLeadK
    let v_lead := if v_lead0 < 0.1 ∨ -a_lead0 / 2 > v_lead0 then 0 else v_lead0
    let a_lead := if v_lead0 < 0.1 ∨ -a_lead0 / 2 > v_lead0 then 0 else a_lead0
    let new_lead := !prev_lead_status || decide (|x_lead - prev_lead_x| > 2.5)
    { cur_state := { cs with x_l := x_lead, v_l := v_lead },
      a_lead := a_lead, new_lead := new_lead, cold_started := new_lead,
      prev_lead_status := true, prev_lead_x := x_lead,
      lead_data := some ⟨v_lead, x_lead, a_lead⟩, a_lead_tau := lead.aLeadTau }
  else
    { cur_state := { cs with x_l := 50, v_l := v_ego + 10 },
      a_lead := 0, new_lead := new_lead_prev, cold_started := false,
      prev_lead_status := false, prev_lead_x := prev_lead_x,
      lead_data := none, a_lead_tau := LEAD_ACCEL_TAU }

/-- A solver trajectory (`log_t`).  Entries of `v_ego` and `a_ego` are
`Option ℚ`: `none` models an IEEE NaN (`update` probes `v_ego` for NaN). -/
structure MpcSolution where
  x_ego : List ℚ
  v_ego : List (Option ℚ)
  a_ego : List (Option ℚ)
  x_l : List ℚ
  v_l : List ℚ
deriving DecidableEq

/-- Python `<` on possibly-NaN floats: any comparison with NaN is false. -/
def pyLt (a b : Option ℚ) : Bool :=
  match a, b with
  | some x, some y => decide (x < y)
  | _, _ => false

/-- Python `min` on a nonempty float list (first element, then the rest):
an element replaces the running minimum only when strictly `<` it, so a NaN
never replaces it but a NaN head can survive. -/
def pyMin (m : Option ℚ) : List (Option ℚ) → Option ℚ
  | [] => m
  | a :: rest => pyMin (if pyLt a m then a else m) rest

/-- `crashing` (long_mpc.py line 306): some predicted lead-ego gap below -50. -/
def crashingCheck (x_l x_ego : List ℚ) : Bool :=
  (x_l.zip x_ego).any fun p => decide (p.1 - p.2 < -50)

/-- `nans` (long_mpc.py line 307): some predicted ego velocity is NaN. -/
def nansCheck (v_ego : List (Option ℚ)) : Bool := v_ego.any Option.isNone

/-- `backwards` (long_mpc.py line 308): `min(v_ego) < -0.01` with Python
float-comparison semantics. -/
def backwardsCheck (v_ego : List (Option ℚ)) : Bool :=
  match v_ego with
  | [] => false
  | a :: rest => pyLt (pyMin a rest) (some (-0.01))

/-- The reset condition of long_mpc.py line 310:
`((backwards or crashing) and prev_lead_status) or nans`. -/
def resetCond (sol : MpcSolution) (prev_lead_status : Bool) : Bool :=
  ((backwardsCheck sol.v_ego || crashingCheck sol.x_l sol.x_ego) &&
    prev_lead_status) || nansCheck sol.v_ego

/-- The state written by the post-solve part of `LongitudinalMpc.update`. -/
structure TailOut where
  cur_state : CurState
  v_mpc : Option ℚ
  a_mpc : Option ℚ
  v_mpc_future : Option ℚ
  prev_lead_status : Bool
  last_cloudlog_t : ℚ
  /-- `True` exactly when this call emitted the rate-limited warning. -/
  logged : Bool
deriving DecidableEq

/-- The post-solve part of `LongitudinalMpc.update` (long_mpc.py lines
300-322): read out the instantaneous and future solution points, and reset
the instance on a pathological trajectory.  `v_ego` and `aEgo` are the car
state's speed and acceleration, `t` the cycle timestamp (`sec_since_boot`). -/
def updateTail (sol : MpcSolution) (v_ego aEgo t : ℚ) (cs : CurState)
    (prev_lead_status : Bool) (last_cloudlog_t : ℚ) : TailOut :=
  let v_mpc := sol.v_ego.getD 1 none
  let a_mpc := sol.a_ego.getD 1 none
  let v_mpc_future := sol.v_ego.getD 10 none
  if resetCond sol prev_lead_status then
    let logged := decide (t > last_cloudlog_t + 5)
    { cur_state := { cs with v_ego := v_ego, a_ego := 0 },
      v_mpc := some v_ego, a_mpc := some aEgo, v_mpc_future := v_mpc_future,
      prev_lead_status := false,
      last_cloudlog_t := if logged then t else last_cloudlog_t,
      logged := logged }
  else
    { cur_state := cs, v_mpc := v_mpc, a_mpc := a_mpc,
      v_mpc_future := v_mpc_future, prev_lead_status := prev_lead_status,
      last_cloudlog_t := last_cloudlog_t, logged := false }

/-- The plan-source labels of `Planner.choose_solution`. -/
inductive PlanSource
  | cruise
  | mpc1
  | mpc2
deriving DecidableEq

/-- Python `min(solutions, key=solutions.get)`: the running best is replaced
only when a later entry is strictly smaller, so the first minimal entry wins. -/
def argminFirst (best : PlanSource × ℚ) : List (PlanSource × ℚ) → PlanSource × ℚ
  | [] => best
  | a :: rest => argminFirst (if a.2 < best.2 then a else best) rest

/-- The fields of the planner written by `choose_solution`. -/
structure ChooseOut where
  v_acc : ℚ
  a_acc : ℚ
  longitudinalPlanSource : PlanSource
  v_acc_future : ℚ
deriving DecidableEq

/-- `Planner.choose_solution` (planner.py lines 110-137).  When enabled, the
candidate dict holds the cruise smoother output always and each MPC output
only when that instance's `prev_lead_status` is set; the slowest candidate
becomes the plan.  `v_acc_future` is recomputed unconditionally. -/
def choose_solution (v_cruise_setpoint : ℚ) (enabled : Bool)
    (v_cruise a_cruise : ℚ)
    (mpc1_prev_lead : Bool) (v_mpc1 a_mpc1 v_mpc1_future : ℚ)
    (mpc2_prev_lead : Bool) (v_mpc2 a_mpc2 v_mpc2_future : ℚ)
    (prev_v_acc prev_a_acc : ℚ) (prev_source : PlanSource) : ChooseOut :=
  let v_acc_future := min (min v_mpc1_future v_mpc2_future) v_cruise_setpoint
  if enabled then
    let rest :=
      (if mpc1_prev_lead then [(PlanSource.mpc1, v_mpc1)] else []) ++
      (if mpc2_prev_lead then [(PlanSource.mpc2, v_mpc2)] else [])
    let slowest := (argminFirst (PlanSource.cruise, v_cruise) rest).1
    match slowest with
    | .mpc1 => { v_acc := v_mpc1, a_acc := a_mpc1,
                 longitudinalPlanSource := slowest, v_acc_future := v_acc_future }
    | .mpc2 => { v_acc := v_mpc2, a_acc := a_mpc2,
                 longitudinalPlanSource := slowest, v_acc_future := v_acc_future }
    | .cruise => { v_acc := v_cruise, a_acc := a_cruise,
                   longitudinalPlanSource := slowest, v_acc_future := v_acc_future }
  else
    { v_acc := prev_v_acc, a_acc := prev_a_acc,
      longitudinalPlanSource := prev_source, v_acc_future := v_acc_future }

/-- `longControlState` values (from `longcontrol`, not under src/; modelled
from the spec: `{off, pid, stopping, starting}`). -/
inductive LongCtrlState
  | off
  | pid
  | stopping
  | starting
deriving DecidableEq

/-- The forward-collision-warning block of `Planner.update` (planner.py lines
316-326 and 369-371): `reset_lead` is invoked exactly when `mpc1.new_lead`
(line 317; `mpc2.new_lead` is never consulted), the checker verdict is
suppressed while the brake is pressed, and the published flag is further
gated on `fcw_enabled` when long control is off.  Returns
(`reset_lead` invoked, published `fcw`). -/
def fcwGate (mpc1_new_lead mpc2_new_lead checker_fcw brakePressed
    fcw_enabled : Bool) (long_control_state : LongCtrlState) : Bool × Bool :=
  let reset_lead := mpc1_new_lead
  let fcw := checker_fcw && !brakePressed
  let fcw := fcw && (fcw_enabled || decide (long_control_state ≠ .off))
  (reset_lead, fcw)

/-- The speed-limit-ahead override block of `Planner.update` (planner.py
lines 269-280), inside the `enabled` branch: when the ahead limit is below
the current limit, the previous plan source is cruise and ego is above the
ahead limit, both accel limits and the recurrence acceleration seed are
pinned to the required deceleration.  Returns
(`accel_limits[0]`, `accel_limits[1]`, `a_acc_start`) after the block. -/
def aheadLimitOverride (enabled : Bool) (v_speedlimit_ahead v_speedlimit
    v_ego speedLimitAheadDistance : ℚ) (longitudinalPlanSource : PlanSource)
    (a_min a_max a_acc_start : ℚ) : ℚ × ℚ × ℚ :=
  if enabled ∧ v_speedlimit_ahead < v_speedlimit ∧
      longitudinalPlanSource = .cruise ∧ v_ego > v_speedlimit_ahead then
    let required_decel := min 0
      ((v_speedlimit_ahead * v_speedlimit_ahead - v_ego * v_ego) /
        (speedLimitAheadDistance * 2))
    let required_decel := max required_decel (-3.0)
    (required_decel, required_decel, required_decel)
  else (a_min, a_max, a_acc_start)

/-- `NO_CURVATURE_SPEED = 200 * CV.MPH_TO_MS` (planner.py line 21;
`CV.MPH_TO_MS = 0.44704` from `selfdrive.config`, not under src/). -/
def NO_CURVATURE_SPEED : ℚ := 200 * 0.44704

/-- The radius-banded comfort coefficient of planner.py lines 215-220.  The
sources are Python 2, so the integer-literal quotients `1/250` and `13/2500`
are integer divisions, both equal to 0 (the embedding keeps them as written,
as floor divisions of the integer literals). -/
def curvBandCoeff (radius : ℚ) : ℚ :=
  if radius > 500 then 0.7
  else if radius > 250 then 2.7 - ((Int.fdiv 1 250 : ℤ) : ℚ) * radius
  else 3.0 - ((Int.fdiv 13 2500 : ℤ) : ℚ) * radius

/-- `radius = 1/max(1e-4, curvature)` with `curvature = abs(...)`
(planner.py lines 211-214). -/
def curvRadius (curvature : ℚ) : ℚ := 1 / max (1/10000) |curvature|

/-- The square of `v_curvature = min(NO_CURVATURE_SPEED, sqrt(c*radius))`
(planner.py lines 222-223).  Both arguments of the `min` are nonnegative,
so squaring commutes with it and with every comparison the planner makes
on `v_curvature`. -/
def vCurvatureSq (curvature : ℚ) : ℚ :=
  min (NO_CURVATURE_SPEED ^ 2)
    (curvBandCoeff (curvRadius curvature) * curvRadius curvature)

/-- `decel_for_turn` (planner.py line 228) stated on squares:
`v_curvature < min(v_cruise_setpoint, v_speedlimit, v_ego + 1)` for
nonnegative bounds. -/
def decelForTurnSq (curvature v_cruise_setpoint v_speedlimit v_ego : ℚ) :
    Bool :=
  decide (vCurvatureSq curvature <
    min (min v_cruise_setpoint v_speedlimit) (v_ego + 1) ^ 2)

/-! ### Helper lemmas -/

theorem le_clip (x lo hi : ℚ) : lo ≤ clip x lo hi := le_max_left _ _

theorem clip_le (x lo hi : ℚ) (h : lo ≤ hi) : clip x lo hi ≤ hi :=
  max_le h (min_le_left _ _)

theorem clip_cases (x lo hi : ℚ) :
    clip x lo hi = lo ∨ clip x lo hi = hi ∨ clip x lo hi = x := by
  unfold clip
  rcases le_total (min hi x) lo with h | h
  · exact Or.inl (max_eq_left h)
  · rw [max_eq_right h]
    rcases le_total hi x with h2 | h2
    · exact Or.inr (Or.inl (min_eq_left h2))
    · exact Or.inr (Or.inr (min_eq_right h2))

theorem pyRound3_thousandth (q : ℚ) : ∃ k : ℤ, pyRound3 q = (k : ℚ) / 1000 := by
  unfold pyRound3
  split_ifs
  · exact ⟨⌊q * 1000 + 1/2⌋, rfl⟩
  · exact ⟨-⌊-q * 1000 + 1/2⌋, by push_cast; ring⟩

/-- The clamped rounded time-gap satisfies every part of the C3 range claim. -/
theorem clip_round_range (t : ℚ) :
    0.9 ≤ clip (pyRound3 t) 0.9 2.7 ∧ clip (pyRound3 t) 0.9 2.7 ≤ 2.7 ∧
    ∃ k : ℤ, clip (pyRound3 t) 0.9 2.7 = (k : ℚ) / 1000 := by
  refine ⟨le_clip _ _ _, clip_le _ _ _ (by norm_num), ?_⟩
  rcases clip_cases (pyRound3 t) 0.9 2.7 with h | h | h
  · exact ⟨900, by rw [h]; norm_num⟩
  · exact ⟨2700, by rw [h]; norm_num⟩
  · rw [h]; exact pyRound3_thousandth t

/-- The anchor-table lookup of `get_cost` stays within its output anchors. -/
theorem interp_cost_bounds (t : ℚ) :
    0.05 ≤ interp t [0.9, 1.8, 2.7] [1.0, 0.1, 0.05] ∧
    interp t [0.9, 1.8, 2.7] [1.0, 0.1, 0.05] ≤ 1 := by
  unfold interp interpP
  simp only [List.zip]
  norm_num [interpP]
  split_ifs with h1 h2 h3
  · norm_num
  · constructor <;> nlinarith
  · constructor <;> nlinarith
  · norm_num

/-! ### C3: dynamic-follow clamp invariant -/

/-- C3: for every ego speed at or above the 6.7056 m/s low-speed threshold
and every lead state (present with arbitrary velocity/acceleration and
blinker flags, or absent), the time-gap returned by `dynamic_follow` lies in
[0.9, 2.7] and is a multiple of 0.001 (rounded to 3 decimal places). -/
theorem dynamic_follow_range (v_ego : ℚ) (lead_data : Option LeadObs)
    (lb rb : Bool) (h : (6.7056 : ℚ) ≤ v_ego) :
    0.9 ≤ dynamic_follow v_ego lead_data lb rb ∧
    dynamic_follow v_ego lead_data lb rb ≤ 2.7 ∧
    ∃ k : ℤ, dynamic_follow v_ego lead_data lb rb = (k : ℚ) / 1000 := by
  rcases eq_or_lt_of_le h with heq | hlt
  · have hv : dynamic_follow v_ego lead_data lb rb = 1564 / 1000 := by
      unfold dynamic_follow
      rw [if_neg (by rw [← heq]; exact lt_irrefl _)]
      rw [← heq]
      norm_num [pyRound3, interp, interpP]
    rw [hv]
    refine ⟨by norm_num, by norm_num, 1564, by norm_num⟩
  · unfold dynamic_follow
    rw [if_pos hlt]
    cases lead_data with
    | none => exact clip_round_range _
    | some l => exact clip_round_range _

/-- Witness for C3 at ego speed 10 m/s with no lead. -/
theorem dynamic_follow_range_witness :
    (6.7056 : ℚ) ≤ 10 ∧
    (0.9 ≤ dynamic_follow 10 none false false ∧
     dynamic_follow 10 none false false ≤ 2.7 ∧
     ∃ k : ℤ, dynamic_follow 10 none false false = (k : ℚ) / 1000) :=
  ⟨by norm_num, dynamic_follow_range 10 none false false (by norm_num)⟩

/-! ### C4: cost monotonicity across the anchor points -/

/-- C4 counterexample: with a tracked lead at 100 m and lead velocity 10 at
ego speed 10, the real-ratio substitution replaces both anchor time-gaps by
the same ratio and the closing-speed branch clamps the result, so the cost
at the larger anchor 1.8 equals the cost at the smaller anchor 0.9 instead
of being strictly smaller. -/
theorem get_cost_anchor_not_strict :
    get_cost (some ⟨10, 100, 0⟩) 10 1.8 = 1.1 ∧
    get_cost (some ⟨10, 100, 0⟩) 10 0.9 = 1.1 ∧
    ¬ get_cost (some ⟨10, 100, 0⟩) 10 1.8 < get_cost (some ⟨10, 100, 0⟩) 10 0.9 := by
  have h1 : get_cost (some ⟨10, 100, 0⟩) 10 1.8 = 1.1 := by
    norm_num [get_cost, interp, interpP, clip, abs_of_pos, abs_of_nonneg]
  have h2 : get_cost (some ⟨10, 100, 0⟩) 10 0.9 = 1.1 := by
    norm_num [get_cost, interp, interpP, clip, abs_of_pos, abs_of_nonneg]
  exact ⟨h1, h2, by rw [h1, h2]; exact lt_irrefl _⟩

/-- C4 as amended: with no lead data (so the anchor lookup applies to the
given `TR` unchanged), `get_cost` strictly decreases across the anchors
0.9, 1.8, 2.7 with values 1.0, 0.1, 0.05. -/
theorem get_cost_anchor_strict_no_lead (v_ego : ℚ) :
    get_cost none v_ego 2.7 < get_cost none v_ego 1.8 ∧
    get_cost none v_ego 1.8 < get_cost none v_ego 0.9 ∧
    get_cost none v_ego 0.9 = 1.0 ∧ get_cost none v_ego 1.8 = 0.1 ∧
    get_cost none v_ego 2.7 = 0.05 := by
  have h : ∀ TR : ℚ, get_cost none v_ego TR =
      pyRound3 (interp TR [0.9, 1.8, 2.7] [1.0, 0.1, 0.05]) := fun _ => rfl
  rw [h, h, h]
  norm_num [pyRound3, interp, interpP]

/-! ### C10: the closing-speed branch of get_cost is constant -/

/-- C10: whenever lead velocity data is present and ego speed exceeds 5 m/s,
`get_cost` returns exactly 1.1 regardless of the time-gap, the lead distance
and the relative speed: the lookup lies in [0.05, 1.0], the divisor is at
least 1, and the final clip to [1.1, 4.5] therefore always binds below. -/
theorem get_cost_constant_fast (l : LeadObs) (v_ego TR : ℚ) (h : 5 < v_ego) :
    get_cost (some l) v_ego TR = 1.1 := by
  unfold get_cost
  dsimp only
  rw [if_pos h]
  set t : ℚ := if v_ego ≠ 0 ∧ |l.x_lead / v_ego - TR| ≥ 0.25 then
    l.x_lead / v_ego else TR with ht
  have hb := interp_cost_bounds t
  set y : ℚ := interp t [0.9, 1.8, 2.7] [1.0, 0.1, 0.05] with hy
  have hf1 : (1 : ℚ) ≤ clip ((l.v_lead - v_ego) / 2 + 1.5) 1 2 := le_clip _ _ _
  have hf2 : clip ((l.v_lead - v_ego) / 2 + 1.5) 1 2 ≤ 2 :=
    clip_le _ _ _ (by norm_num)
  set f : ℚ := clip ((l.v_lead - v_ego) / 2 + 1.5) 1 2 with hfd
  have hq : y / f ≤ 1 := by
    rw [div_le_one (by linarith)]
    linarith [hb.2]
  unfold clip
  rw [min_eq_right (by linarith : y / f ≤ (4.5 : ℚ))]
  rw [max_eq_left (by linarith : y / f ≤ (1.1 : ℚ))]

/-- Witness for C10: lead at 40 m moving 5 m/s, ego at 10 m/s, `TR` = 1.8. -/
theorem get_cost_constant_fast_witness :
    (5 : ℚ) < 10 ∧ get_cost (some ⟨5, 40, 0⟩) 10 1.8 = 1.1 :=
  ⟨by norm_num, get_cost_constant_fast ⟨5, 40, 0⟩ 10 1.8 (by norm_num)⟩

/-! ### C9: the configured following-distance override -/

/-- C9 counterexample: with no lead, `get_TR` returns the fixed 1.8 s gap
before ever consulting the configured override (here 1.0 s, already within
the clamp range), so the override is not returned "regardless of whether a
lead is present". -/
theorem get_TR_override_ignored_no_lead :
    (get_TR none 10 (some 1) false false 0).1 = 1.8 ∧
    clip 1 0.9 2.7 = 1 ∧
    (get_TR none 10 (some 1) false false 0).1 ≠ clip 1 0.9 2.7 := by
  have h1 : (get_TR none 10 (some 1) false false 0).1 = 1.8 := rfl
  have h2 : clip 1 0.9 2.7 = 1 := by norm_num [clip]
  exact ⟨h1, h2, by rw [h1, h2]; norm_num⟩

/-- C9 as amended: whenever lead velocity data is present and the override
is configured, `get_TR` returns the override clamped to [0.9, 2.7],
independent of ego speed, blinkers, the lead geometry and the previous cost
(the dynamic-follow computation is bypassed); with no lead it returns 1.8. -/
theorem get_TR_override (l : LeadObs) (v_ego c : ℚ) (lb rb : Bool)
    (last_cost : ℚ) :
    (get_TR (some l) v_ego (some c) lb rb last_cost).1 = clip c 0.9 2.7 ∧
    (get_TR none v_ego (some c) lb rb last_cost).1 = 1.8 :=
  ⟨rfl, rfl⟩

/-! ### C5: lead re-acquisition cold start -/

/-- C5: on an `update` call with the phantom inactive and a valid lead, the
optimizer is cold-started (`init_with_simulation`) with `new_lead = true`
exactly when `prev_lead_status` was false or the lead distance moved more
than 2.5 m from the previous seed distance; afterwards `prev_lead_status`
is true and `prev_lead_x` is the new lead distance.  Otherwise the warm
start is kept (`cold_started = new_lead = false`). -/
theorem updateFront_new_lead (phantom : PhantomData) (lead : RadarLead)
    (v_ego : ℚ) (cs : CurState) (prev_lead_status : Bool) (prev_lead_x : ℚ)
    (new_lead_prev : Bool) (lead_data : Option LeadObs) (a_lead_tau : ℚ)
    (hph : phantom.status = false) (hst : lead.status = true) :
    ((updateFront phantom lead v_ego cs prev_lead_status prev_lead_x
        new_lead_prev lead_data a_lead_tau).new_lead = true ↔
      (prev_lead_status = false ∨ |lead.dRel - prev_lead_x| > 2.5)) ∧
    (updateFront phantom lead v_ego cs prev_lead_status prev_lead_x
        new_lead_prev lead_data a_lead_tau).cold_started =
      (updateFront phantom lead v_ego cs prev_lead_status prev_lead_x
        new_lead_prev lead_data a_lead_tau).new_lead ∧
    (updateFront phantom lead v_ego cs prev_lead_status prev_lead_x
        new_lead_prev lead_data a_lead_tau).prev_lead_status = true ∧
    (updateFront phantom lead v_ego cs prev_lead_status prev_lead_x
        new_lead_prev lead_data a_lead_tau).prev_lead_x = lead.dRel := by
  unfold updateFront
  rw [hph, hst]
  simp [Bool.or_eq_true, Bool.not_eq_true', decide_eq_true_eq]

/-- Witness for C5: a lead appearing at 40 m while no lead was tracked
triggers the cold start and flips `prev_lead_status` to true. -/
theorem updateFront_new_lead_witness :
    (((updateFront ⟨false, 0, false⟩ ⟨40, 20, 0, 1.5, true⟩ 15 ⟨0, 15, 0, 0, 0⟩
        false 0 false none 1.5).new_lead = true ↔
      (false = false ∨ |(40 : ℚ) - 0| > 2.5)) ∧
    (updateFront ⟨false, 0, false⟩ ⟨40, 20, 0, 1.5, true⟩ 15 ⟨0, 15, 0, 0, 0⟩
        false 0 false none 1.5).cold_started =
      (updateFront ⟨false, 0, false⟩ ⟨40, 20, 0, 1.5, true⟩ 15 ⟨0, 15, 0, 0, 0⟩
        false 0 false none 1.5).new_lead ∧
    (updateFront ⟨false, 0, false⟩ ⟨40, 20, 0, 1.5, true⟩ 15 ⟨0, 15, 0, 0, 0⟩
        false 0 false none 1.5).prev_lead_status = true ∧
    (updateFront ⟨false, 0, false⟩ ⟨40, 20, 0, 1.5, true⟩ 15 ⟨0, 15, 0, 0, 0⟩
        false 0 false none 1.5).prev_lead_x = (40 : ℚ)) :=
  updateFront_new_lead ⟨false, 0, false⟩ ⟨40, 20, 0, 1.5, true⟩ 15
    ⟨0, 15, 0, 0, 0⟩ false 0 false none 1.5 rfl rfl

/-! ### C1: reset on a pathological solver trajectory -/

/-- C1 (amended): after the post-solve check, if the trajectory has a NaN
ego velocity, or a crash / backwards result while a lead was tracked, the
instance is reset: the seed becomes `{v_ego := current ego speed, a_ego :=
0}`, `prev_lead_status` is cleared, and the anomaly is logged exactly when
5 seconds have passed since the previous log; otherwise nothing is reset
and nothing is logged. -/
theorem updateTail_reset (sol : MpcSolution) (v_ego aEgo t : ℚ)
    (cs : CurState) (prev : Bool) (last : ℚ) :
    (resetCond sol prev = true →
      ((updateTail sol v_ego aEgo t cs prev last).cur_state.v_ego = v_ego ∧
       (updateTail sol v_ego aEgo t cs prev last).cur_state.a_ego = 0 ∧
       (updateTail sol v_ego aEgo t cs prev last).prev_lead_status = false ∧
       ((updateTail sol v_ego aEgo t cs prev last).logged = true ↔ t > last + 5) ∧
       (updateTail sol v_ego aEgo t cs prev last).last_cloudlog_t =
         (if t > last + 5 then t else last))) ∧
    (resetCond sol prev = false →
      ((updateTail sol v_ego aEgo t cs prev last).cur_state = cs ∧
       (updateTail sol v_ego aEgo t cs prev last).prev_lead_status = prev ∧
       (updateTail sol v_ego aEgo t cs prev last).logged = false ∧
       (updateTail sol v_ego aEgo t cs prev last).last_cloudlog_t = last)) := by
  constructor <;> intro h <;>
    simp [updateTail, h, decide_eq_true_eq]

/-- C1 counterexample: a NaN trajectory does reset the seed to
`(v_ego, 0) = (10, 0)` and clear `prev_lead_status`, but the planner then
overwrites the seed with its recurrence state `(v_acc_start, a_acc_start) =
(5, 1)` via `set_cur_state` before the next `update` (planner.py lines
308-311), and the pre-solve writes of the next `update` (here: no lead)
leave ego seed velocity/acceleration untouched — so the seed the next solve
starts from is `(5, 1)`, not the reset seed `(10, 0)`. -/
theorem updateTail_reset_seed_overwritten :
    (updateTail ⟨[0, 0], [some 1, none], [some 0, some 0], [50, 50], [10, 10]⟩
        10 0 100 ⟨0, 3, 1, 45, 20⟩ true 0).cur_state.v_ego = 10 ∧
    (updateTail ⟨[0, 0], [some 1, none], [some 0, some 0], [50, 50], [10, 10]⟩
        10 0 100 ⟨0, 3, 1, 45, 20⟩ true 0).cur_state.a_ego = 0 ∧
    (updateTail ⟨[0, 0], [some 1, none], [some 0, some 0], [50, 50], [10, 10]⟩
        10 0 100 ⟨0, 3, 1, 45, 20⟩ true 0).prev_lead_status = false ∧
    (updateFront ⟨false, 0, false⟩ ⟨0, 0, 0, 1.5, false⟩ 5
        (set_cur_state (updateTail
          ⟨[0, 0], [some 1, none], [some 0, some 0], [50, 50], [10, 10]⟩
          10 0 100 ⟨0, 3, 1, 45, 20⟩ true 0).cur_state 5 1)
        false 0 false none 1.5).cur_state.v_ego = 5 ∧
    (updateFront ⟨false, 0, false⟩ ⟨0, 0, 0, 1.5, false⟩ 5
        (set_cur_state (updateTail
          ⟨[0, 0], [some 1, none], [some 0, some 0], [50, 50], [10, 10]⟩
          10 0 100 ⟨0, 3, 1, 45, 20⟩ true 0).cur_state 5 1)
        false 0 false none 1.5).cur_state.v_ego ≠ 10 := by
  have hr : resetCond
      ⟨[0, 0], [some 1, none], [some 0, some 0], [50, 50], [10, 10]⟩ true
      = true := by
    simp [resetCond, nansCheck]
  refine ⟨?_, ?_, ?_, ?_, ?_⟩ <;>
    simp [updateTail, updateFront, set_cur_state, hr]

/-! ### C2: plan arbitration -/

/-- C2 counterexample: with the controller enabled but mpc1 not tracking a
lead (`prev_lead_status = false`), mpc1's slower output 1 m/s is excluded
from the candidate dict, so `vTarget` is the cruise output 5 m/s rather
than the minimum 1 m/s of the cruise output and the two MPC outputs. -/
theorem choose_solution_excludes_untracked :
    (choose_solution 30 true 5 0 false 1 0 6 false 7 0 8
        0 0 PlanSource.cruise).v_acc = 5 ∧
    min (min 5 1) 7 = (1 : ℚ) ∧
    (choose_solution 30 true 5 0 false 1 0 6 false 7 0 8
        0 0 PlanSource.cruise).v_acc ≠ min (min 5 1) 7 := by
  refine ⟨rfl, by norm_num, ?_⟩
  have h : (choose_solution 30 true 5 0 false 1 0 6 false 7 0 8
      0 0 PlanSource.cruise).v_acc = 5 := rfl
  rw [h]
  norm_num

/-- C2 as amended: when enabled, `vTarget` is the minimum among the cruise
output and the outputs of exactly those MPC instances whose
`prev_lead_status` is set; the recorded plan source is consistent (its own
velocity/acceleration are published, and an MPC can only win while
tracking); `vTargetFuture` is unconditionally the minimum of both MPC
future readouts and the cruise setpoint. -/
theorem choose_solution_arbitration (vcs v_cruise a_cruise : ℚ) (m1 : Bool)
    (v1 a1 f1 : ℚ) (m2 : Bool) (v2 a2 f2 : ℚ) (pv pa : ℚ) (ps : PlanSource) :
    (choose_solution vcs true v_cruise a_cruise m1 v1 a1 f1 m2 v2 a2 f2
        pv pa ps).v_acc_future = min (min f1 f2) vcs ∧
    (choose_solution vcs true v_cruise a_cruise m1 v1 a1 f1 m2 v2 a2 f2
        pv pa ps).v_acc =
      (if m1 && m2 then min v_cruise (min v1 v2)
       else if m1 then min v_cruise v1
       else if m2 then min v_cruise v2
       else v_cruise) ∧
    ((choose_solution vcs true v_cruise a_cruise m1 v1 a1 f1 m2 v2 a2 f2
        pv pa ps).longitudinalPlanSource = PlanSource.cruise →
      (choose_solution vcs true v_cruise a_cruise m1 v1 a1 f1 m2 v2 a2 f2
        pv pa ps).v_acc = v_cruise ∧
      (choose_solution vcs true v_cruise a_cruise m1 v1 a1 f1 m2 v2 a2 f2
        pv pa ps).a_acc = a_cruise) ∧
    ((choose_solution vcs true v_cruise a_cruise m1 v1 a1 f1 m2 v2 a2 f2
        pv pa ps).longitudinalPlanSource = PlanSource.mpc1 →
      m1 = true ∧
      (choose_solution vcs true v_cruise a_cruise m1 v1 a1 f1 m2 v2 a2 f2
        pv pa ps).v_acc = v1 ∧
      (choose_solution vcs true v_cruise a_cruise m1 v1 a1 f1 m2 v2 a2 f2
        pv pa ps).a_acc = a1) ∧
    ((choose_solution vcs true v_cruise a_cruise m1 v1 a1 f1 m2 v2 a2 f2
        pv pa ps).longitudinalPlanSource = PlanSource.mpc2 →
      m2 = true ∧
      (choose_solution vcs true v_cruise a_cruise m1 v1 a1 f1 m2 v2 a2 f2
        pv pa ps).v_acc = v2 ∧
      (choose_solution vcs true v_cruise a_cruise m1 v1 a1 f1 m2 v2 a2 f2
        pv pa ps).a_acc = a2) := by
  cases m1 <;> cases m2 <;>
    simp [choose_solution, argminFirst] <;>
    split_ifs <;>
    simp_all [min_def] <;>
    split_ifs <;>
    first
      | rfl
      | linarith

/-! ### C6: forward-collision-warning gating -/

/-- C6 counterexample: mpc2 reports a new-lead transition (second argument
true) while mpc1 does not, yet `reset_lead` is not invoked — planner.py line
317 consults only `mpc1.new_lead`, so the checker is not re-armed "on every
cycle in which either MPC instance reports a new-lead transition". -/
theorem fcwGate_mpc2_ignored :
    (fcwGate false true true false true LongCtrlState.pid).1 = false ∧
    (fcwGate false true true false true LongCtrlState.pid).1 ≠ true := by
  exact ⟨rfl, by simp [fcwGate]⟩

/-- C6 as amended: the collision-warning checker is re-armed exactly when
the primary instance mpc1 reports a new-lead transition (mpc2's transitions
are ignored); the published fcw flag is never true while the brake is
pressed; and it is never true with long control off unless `fcw_enabled`
is set. -/
theorem fcwGate_gating (m1 m2 cf bp fe : Bool) (st : LongCtrlState) :
    (fcwGate m1 m2 cf bp fe st).1 = m1 ∧
    ((fcwGate m1 m2 cf bp fe st).2 = true → bp = false) ∧
    ((fcwGate m1 m2 cf bp fe st).2 = true → st = LongCtrlState.off →
      fe = true) := by
  refine ⟨rfl, ?_, ?_⟩
  · intro h2
    cases bp
    · rfl
    · simp [fcwGate] at h2
  · intro h2 hst
    subst hst
    cases fe
    · simp [fcwGate] at h2
    · rfl

/-! ### C7: speed-limit-ahead hard override -/

/-- C7: on an enabled cycle where the ahead speed limit is below the current
speed limit, the previous plan source is cruise and ego speed exceeds the
ahead limit, the required deceleration
`d = max(min(0, (v_ahead² − v_ego²) / (2·distance)), −3.0)` is written to
both accel limits and to the recurrence acceleration seed `a_acc_start`. -/
theorem aheadLimitOverride_pins (enabled : Bool)
    (v_ahead v_limit v_ego dist a_min a_max a_start : ℚ) (ps : PlanSource)
    (hen : enabled = true) (h1 : v_ahead < v_limit)
    (h2 : ps = PlanSource.cruise) (h3 : v_ego > v_ahead) :
    aheadLimitOverride enabled v_ahead v_limit v_ego dist ps
        a_min a_max a_start =
      (max (min 0 ((v_ahead * v_ahead - v_ego * v_ego) / (2 * dist))) (-3.0),
       max (min 0 ((v_ahead * v_ahead - v_ego * v_ego) / (2 * dist))) (-3.0),
       max (min 0 ((v_ahead * v_ahead - v_ego * v_ego) / (2 * dist))) (-3.0)) := by
  subst hen h2
  unfold aheadLimitOverride
  rw [if_pos ⟨by simp, h1, rfl, h3⟩]
  rw [mul_comm dist 2]

/-- Witness for C7: ego at 20 m/s, ahead limit 10 m/s in 50 m, current limit
20 m/s, previous source cruise: the pinned deceleration value is −3. -/
theorem aheadLimitOverride_pins_witness :
    aheadLimitOverride true 10 20 20 50 PlanSource.cruise 1 2 3 =
      (-3, -3, -3) := by
  rw [aheadLimitOverride_pins true 10 20 20 50 1 2 3 PlanSource.cruise
    rfl (by norm_num) rfl (by norm_num)]
  norm_num

/-! ### C8: the curvature speed ceiling -/

/-- C8: at curvature 1/15 (radius 15 m) the code's ceiling is
`sqrt(3.0 · 15)` (squared: 45), not the claimed
`sqrt((3.0 − 13/2500 · 15) · 15)` (squared: 43.83): the sources are
Python 2, so `13/2500` and `1/250` are integer divisions equal to 0 and the
lower two radius bands use the constant coefficients 3.0 and 2.7.  The
code's own inline comment at the middle band ("1.7 at 264m 76 kph") matches
real division (2.7 − 264/250 = 1.644, giving 75 kph), not the 2.7 the code
computes — the code contradicts its own documentation. -/
theorem vCurvatureSq_intdiv :
    vCurvatureSq (1/15) = 45 ∧
    ((3.0 - 13/2500 * 15) * 15 : ℚ) = 43.83 ∧ (45 : ℚ) ≠ 43.83 ∧
    curvBandCoeff 264 = 2.7 ∧ (2.7 - 264/250 : ℚ) = 1.644 ∧
    (2.7 : ℚ) ≠ 1.644 := by
  have hr : curvRadius (1/15) = 15 := by
    unfold curvRadius
    rw [abs_of_pos (by norm_num)]
    rw [max_eq_right (by norm_num)]
    norm_num
  have hc : curvBandCoeff 15 = 3 := by
    unfold curvBandCoeff
    rw [if_neg (by norm_num), if_neg (by norm_num)]
    norm_num [Int.fdiv]
  have hc2 : curvBandCoeff 264 = 2.7 := by
    unfold curvBandCoeff
    rw [if_neg (by norm_num), if_pos (by norm_num)]
    norm_num [Int.fdiv]
  refine ⟨?_, by norm_num, by norm_num, hc2, by norm_num, by norm_num⟩
  unfold vCurvatureSq
  rw [hr, hc]
  rw [min_eq_right (by norm_num [NO_CURVATURE_SPEED])]
  norm_num

end OP
